import Mathlib

/-!
Shallow embedding of `src/app/webhook_handler.py` (the whole repository is
this one file): a Flask webhook endpoint that normalizes incoming JSON
payloads, counts them against a fixed quota, and sends email alerts over
SMTP.

Modelling conventions:
- JSON values are the inductive `Json`; a Python `dict` payload is the
  `Json.obj` constructor carrying an association list (Python dict keys are
  unique; lookup is first-match).
- The outcome of one SMTP send attempt (success, `smtplib.SMTPException`,
  or any other exception) is the environment datum `SmtpResult`; the pure
  function `send_email_alert` maps it to the `(bool, message)` tuple the
  Python function returns, mirroring its `try/except` arms.
- `webhook_handler` is a state transition on the global `webhook_count`:
  it takes the current count and a `Request` (the parsed-body outcome plus
  the SMTP outcomes of the at-most-two send attempts of this request) and
  returns the new count, the HTTP response, and the list of send attempts
  made. Python exceptions (JSON parse failure in `request.json`, the
  `AttributeError` raised by `data.get` when `data` is not a dict) are the
  explicit error branches, caught by the handler's `try/except` exactly as
  in the source.
- The `__main__` startup block is `startup`, a function of the
  `test_email_login` result and the `create_webhook` outcome.
-/

namespace Webhooks

/-- JSON values, as Python sees them after `request.json`:
`None`, `bool`, numbers (modelled as `Int`), strings, lists, dicts. -/
inductive Json where
  | null : Json
  | bool : Bool → Json
  | num : Int → Json
  | str : String → Json
  | arr : List Json → Json
  | obj : List (String × Json) → Json

/-- Python `str(type(v).__name__)`, used in the `AttributeError` message
raised by `v.get` when `v` is not a dict. -/
def pyTypeName : Json → String
  | Json.null => "NoneType"
  | Json.bool _ => "bool"
  | Json.num _ => "int"
  | Json.str _ => "str"
  | Json.arr _ => "list"
  | Json.obj _ => "dict"

/-- The single-quote character, written as an escape to keep source plain. -/
def sq : String := "\x27"

mutual

/-- Python `repr` of a JSON value (dicts and lists render recursively;
`None`/`True`/`False` in Python spelling; strings in single quotes). -/
def pyRepr : Json → String
  | Json.null => "None"
  | Json.bool true => "True"
  | Json.bool false => "False"
  | Json.num n => toString n
  | Json.str s => sq ++ s ++ sq
  | Json.arr xs => "[" ++ pyReprList xs ++ "]"
  | Json.obj kvs => "\x7b" ++ pyReprPairs kvs ++ "\x7d"

/-- Comma-separated `repr`s of list elements. -/
def pyReprList : List Json → String
  | [] => ""
  | [x] => pyRepr x
  | x :: xs => pyRepr x ++ ", " ++ pyReprList xs

/-- Comma-separated `'key': repr(value)` renderings of dict entries. -/
def pyReprPairs : List (String × Json) → String
  | [] => ""
  | [(k, v)] => sq ++ k ++ sq ++ ": " ++ pyRepr v
  | (k, v) :: kvs => sq ++ k ++ sq ++ ": " ++ pyRepr v ++ ", " ++ pyReprPairs kvs

end

/-- Python `str(v)` as used in f-strings: a string interpolates bare,
anything else via its `repr`-style rendering. -/
def pyStr : Json → String
  | Json.str s => s
  | v => pyRepr v

/-- `MAX_WEBHOOKS = 3` (line 60). -/
def MAX_WEBHOOKS : Nat := 3

/-- The record built by `process_webhook_data` (lines 145-149): a dict with
exactly the keys `event_type`, `timestamp`, `details`, in that order. -/
structure ProcessedData where
  event_type : Json
  timestamp : Json
  details : Json

/-- `process_webhook_data` (lines 134-150): `data.get("event_type",
"Unknown")`, `data.get("timestamp")` (so `None` when absent),
`data.get("details", {})`. `dict.get` on a present key returns the stored
value, on an absent key the default; it never raises on a dict. -/
def process_webhook_data (data : List (String × Json)) : ProcessedData :=
  { event_type := (List.lookup "event_type" data).getD (Json.str "Unknown")
    timestamp := (List.lookup "timestamp" data).getD Json.null
    details := (List.lookup "details" data).getD (Json.obj []) }

/-- Python `repr` of the `processed_data` dict, as interpolated into the
alert body f-string (line 170); insertion order of the three keys. -/
def pyReprProcessed (p : ProcessedData) : String :=
  "\x7b" ++ sq ++ "event_type" ++ sq ++ ": " ++ pyRepr p.event_type ++ ", "
    ++ sq ++ "timestamp" ++ sq ++ ": " ++ pyRepr p.timestamp ++ ", "
    ++ sq ++ "details" ++ sq ++ ": " ++ pyRepr p.details ++ "\x7d"

/-- Outcome of one SMTP session in `send_email_alert`'s `try` block:
success, an `smtplib.SMTPException` with text `e`, or any other exception
with text `e`. -/
inductive SmtpResult where
  | ok : SmtpResult
  | smtpError : String → SmtpResult
  | otherError : String → SmtpResult
deriving DecidableEq, Repr

/-- `send_email_alert` (lines 101-132). The message construction and the
three `try/except` arms: success returns `(True, "Email sent
successfully")`; `smtplib.SMTPException` and bare `Exception` are caught
and converted to `(False, <descriptive message>)`. The subject and body go
into the MIME message, which the model does not inspect further. -/
def send_email_alert (smtp : SmtpResult) (subject : String) (body : String) :
    Bool × String :=
  match smtp with
  | SmtpResult.ok => (true, "Email sent successfully")
  | SmtpResult.smtpError e =>
      (false, "An error occurred while sending the email: " ++ e)
  | SmtpResult.otherError e => (false, "An unexpected error occurred: " ++ e)

/-- The environment of one inbound POST: the outcome of `request.json`
(`Except.error e` when parsing raises an exception with text `e`), and the
SMTP outcomes of the per-event send and of the completion send (the latter
only consulted when that second send happens). -/
structure Request where
  body : Except String Json
  sendOutcome : SmtpResult
  finalSendOutcome : SmtpResult

/-- What one call of `webhook_handler` produces: the new `webhook_count`,
the HTTP status code, the `status` and `message` fields of the JSON
response body, and the `send_email_alert` calls made (subject, body). -/
structure HandlerResult where
  count : Nat
  status : Nat
  respStatus : String
  respMessage : String
  sent : List (String × String)
deriving DecidableEq, Repr

/-- The `AttributeError` text Python raises for `data.get` when `data` is
not a dict: `'<type>' object has no attribute 'get'`. -/
def attrError (v : Json) : String :=
  sq ++ pyTypeName v ++ sq ++ " object has no attribute " ++ sq ++ "get" ++ sq

/-- Alert subject f-string (line 169):
`f"Webhook Alert {webhook_count}/{MAX_WEBHOOKS}: {processed_data['event_type']}"`. -/
def alert_subject (count : Nat) (p : ProcessedData) : String :=
  "Webhook Alert " ++ toString count ++ "/" ++ toString MAX_WEBHOOKS ++ ": "
    ++ pyStr p.event_type

/-- Alert body f-string (line 170): `f"Processed webhook data:\n{processed_data}"`. -/
def alert_body (p : ProcessedData) : String :=
  "Processed webhook data:\n" ++ pyReprProcessed p

/-- `final_subject` (line 177). -/
def final_subject : String := "Webhook Processing Complete"

/-- `final_body` (line 178). -/
def final_body : String :=
  "All " ++ toString MAX_WEBHOOKS
    ++ " webhooks have been processed. The system will now stop accepting new webhooks."

/-- `webhook_handler` (lines 152-185), as a transition on `webhook_count`.
The `try` covers everything: a `request.json` failure or the
`AttributeError` from `process_webhook_data` on a non-dict falls to the
`except Exception` arm (500 with the exception text). On a dict body the
counter is incremented, the alert composed and sent; a failed send returns
500 with the mailer's message; otherwise, when the incremented counter has
reached `MAX_WEBHOOKS` (`>=` comparison, line 176), the completion alert is
additionally sent with its result discarded, and the handler returns 200. -/
def webhook_handler (webhook_count : Nat) (req : Request) : HandlerResult :=
  match req.body with
  | Except.error e =>
      { count := webhook_count, status := 500, respStatus := "error"
        respMessage := e, sent := [] }
  | Except.ok data =>
    match data with
    | Json.obj d =>
      let processed := process_webhook_data d
      let count := webhook_count + 1
      let subj := alert_subject count processed
      let body := alert_body processed
      let res := send_email_alert req.sendOutcome subj body
      if res.1 = false then
        { count := count, status := 500, respStatus := "error"
          respMessage := res.2, sent := [(subj, body)] }
      else if MAX_WEBHOOKS ≤ count then
        let _final := send_email_alert req.finalSendOutcome final_subject final_body
        { count := count, status := 200, respStatus := "success"
          respMessage := "Webhook processed and alert sent"
          sent := [(subj, body), (final_subject, final_body)] }
      else
        { count := count, status := 200, respStatus := "success"
          respMessage := "Webhook processed and alert sent"
          sent := [(subj, body)] }
    | v =>
      { count := webhook_count, status := 500, respStatus := "error"
        respMessage := attrError v, sent := [] }

/-- Whether a request's body parsed and normalized successfully (a JSON
dict): exactly the requests on which the handler increments the counter. -/
def normalizesB (req : Request) : Bool :=
  match req.body with
  | Except.ok (Json.obj _) => true
  | _ => false

/-- The counter after one request. -/
def stepCount (c : Nat) (req : Request) : Nat := (webhook_handler c req).count

/-- The counter after a sequence of requests, starting from `c`. -/
def runCount (c : Nat) (reqs : List Request) : Nat := reqs.foldl stepCount c

/-- The per-request results of a sequence of requests, threading the
global counter through, starting from `c`. -/
def runHandler (c : Nat) : List Request → List HandlerResult
  | [] => []
  | r :: rs =>
      let res := webhook_handler c r
      res :: runHandler res.count rs

/-- The `__main__` environment: the `test_email_login()` result and the
`create_webhook()` outcome (`Except.error e` when it raises). -/
structure StartupEnv where
  loginOk : Bool
  createResult : Except String String

/-- How the `__main__` block ends: `sys.exit` with a code, or reaching
`app.run` with the provisioned webhook URL in hand. -/
inductive StartupOutcome where
  | exited : Nat → StartupOutcome
  | running : String → StartupOutcome
deriving DecidableEq, Repr

/-- The `__main__` block (lines 187-201): `sys.exit(1)` when
`test_email_login()` is false (`SystemExit` is not an `Exception`, so the
surrounding `except Exception` does not catch it); otherwise
`create_webhook()` runs — if it raises, the `except` arm calls
`sys.exit(1)`; on success `app.run` starts. The boolean records whether
`create_webhook` was invoked. -/
def startup (env : StartupEnv) : StartupOutcome × Bool :=
  if env.loginOk = false then (StartupOutcome.exited 1, false)
  else
    match env.createResult with
    | Except.error _ => (StartupOutcome.exited 1, true)
    | Except.ok url => (StartupOutcome.running url, true)

/-- The payload `{"event_type": "ping"}` used in the spec's test scenario. -/
def pingBody : Json := Json.obj [("event_type", Json.str "ping")]

/-- A request with the ping payload whose sends all succeed. -/
def pingReq : Request :=
  { body := Except.ok pingBody, sendOutcome := SmtpResult.ok
    finalSendOutcome := SmtpResult.ok }

/-- A request with the ping payload whose per-event send fails with an
`smtplib.SMTPException` carrying the text `boom`. -/
def failSendReq : Request :=
  { body := Except.ok pingBody, sendOutcome := SmtpResult.smtpError "boom"
    finalSendOutcome := SmtpResult.ok }

/-- A request whose body fails to parse as JSON: `request.json` raises a
`BadRequest` exception, modelled by its message text. -/
def badJsonReq : Request :=
  { body := Except.error "400 Bad Request: the browser or proxy sent a request that this server could not understand."
    sendOutcome := SmtpResult.ok, finalSendOutcome := SmtpResult.ok }

/-- A request whose body is valid JSON but a list, not an object. -/
def arrayReq : Request :=
  { body := Except.ok (Json.arr []), sendOutcome := SmtpResult.ok
    finalSendOutcome := SmtpResult.ok }

/-- A request with the ping payload whose per-event send succeeds but whose
completion-alert send fails. -/
def finalFailReq : Request :=
  { body := Except.ok pingBody, sendOutcome := SmtpResult.ok
    finalSendOutcome := SmtpResult.smtpError "late boom" }

/-- No alert subject of the form `"Webhook Alert ..."` coincides with the
completion subject: their 9th characters differ. -/
lemma webhook_alert_ne_final (s : String) :
    "Webhook Alert " ++ s ≠ "Webhook Processing Complete" := by
  intro h
  have hd := congrArg String.data h
  rw [String.data_append] at hd
  have h14 := congrArg (List.take 14) hd
  rw [show (14 : Nat) = ("Webhook Alert ".data).length from rfl, List.take_left] at h14
  exact absurd h14 (by decide)

/-- The per-event alert subject is never the completion subject. -/
lemma alert_subject_ne_final (c : Nat) (p : ProcessedData) :
    alert_subject c p ≠ final_subject := by
  unfold alert_subject final_subject
  rw [String.append_assoc, String.append_assoc, String.append_assoc,
    String.append_assoc]
  exact webhook_alert_ne_final _

/-- Unfolding of `webhook_handler` on a request whose body is a JSON
object: only the send-result and quota branches remain. -/
lemma handler_ok_obj (c : Nat) (b : Except String Json) (so fo : SmtpResult)
    (d : List (String × Json)) (hb : b = Except.ok (Json.obj d)) :
    webhook_handler c ⟨b, so, fo⟩ =
      (let processed := process_webhook_data d
       let subj := alert_subject (c + 1) processed
       let body := alert_body processed
       let res := send_email_alert so subj body
       if res.1 = false then
         { count := c + 1, status := 500, respStatus := "error"
           respMessage := res.2, sent := [(subj, body)] }
       else if MAX_WEBHOOKS ≤ c + 1 then
         { count := c + 1, status := 200, respStatus := "success"
           respMessage := "Webhook processed and alert sent"
           sent := [(subj, body), (final_subject, final_body)] }
       else
         { count := c + 1, status := 200, respStatus := "success"
           respMessage := "Webhook processed and alert sent"
           sent := [(subj, body)] }) := by
  subst hb
  rfl

/-- One handler step changes the counter by exactly one on a
successfully-normalized request and leaves it unchanged otherwise. -/
lemma stepCount_eq (c : Nat) (req : Request) :
    stepCount c req = if normalizesB req then c + 1 else c := by
  obtain ⟨b, so, fo⟩ := req
  match b with
  | Except.error e => rfl
  | Except.ok Json.null => rfl
  | Except.ok (Json.bool x) => rfl
  | Except.ok (Json.num x) => rfl
  | Except.ok (Json.str x) => rfl
  | Except.ok (Json.arr x) => rfl
  | Except.ok (Json.obj d) =>
    show (webhook_handler c ⟨Except.ok (Json.obj d), so, fo⟩).count = c + 1
    rw [handler_ok_obj c _ _ _ d rfl]
    cases so with
    | ok =>
      simp only [send_email_alert]
      split
      · rfl
      · split <;> rfl
    | smtpError e => rfl
    | otherError e => rfl

/-- Over any request sequence, the counter grows by exactly the number of
successfully-normalized requests. -/
lemma runCount_eq (c : Nat) (reqs : List Request) :
    runCount c reqs = c + (reqs.filter normalizesB).length := by
  induction reqs generalizing c with
  | nil => simp [runCount]
  | cons r rs ih =>
    rw [runCount, List.foldl_cons]
    rw [show List.foldl stepCount (stepCount c r) rs
          = runCount (stepCount c r) rs from rfl]
    rw [ih, stepCount_eq]
    by_cases hn : normalizesB r
    · simp [hn, List.filter_cons]
      omega
    · simp [hn, List.filter_cons]

/-- C1 counterexample: the claim says the completion alert is sent only on
the request whose increment makes the counter exactly equal the quota, and
never again on requests 4, 5, …. Running four successfully handled ping
requests from counter 0 shows the 4th request (counter 4, `4 >= 3`) sends
the "Webhook Processing Complete" alert again. -/
theorem completion_alert_resent_counterexample :
    ((runHandler 0 [pingReq, pingReq, pingReq, pingReq]).map
        (fun r => r.sent.map Prod.fst)) =
      [["Webhook Alert 1/3: ping"],
       ["Webhook Alert 2/3: ping"],
       ["Webhook Alert 3/3: ping", "Webhook Processing Complete"],
       ["Webhook Alert 4/3: ping", "Webhook Processing Complete"]] := rfl

/-- C1 (amended): on every successfully handled request (body a JSON
object, per-event send succeeding), the "Webhook Processing Complete"
alert is sent exactly when the post-increment counter has reached the
quota (`>=` comparison) — that is, on request 3 and on every later
successful request, not only at the exact crossing. -/
theorem completion_alert_iff_quota_reached (c : Nat) (req : Request)
    (hn : normalizesB req = true) (hs : req.sendOutcome = SmtpResult.ok) :
    ((final_subject, final_body) ∈ (webhook_handler c req).sent ↔
      MAX_WEBHOOKS ≤ c + 1) := by
  obtain ⟨b, so, fo⟩ := req
  simp only [normalizesB] at hn
  simp only at hs
  subst hs
  match hb : b with
  | Except.ok (Json.obj d) =>
    rw [handler_ok_obj c _ _ _ d rfl]
    simp only [send_email_alert]
    constructor
    · intro hmem
      by_contra hlt
      simp only [if_neg, reduceIte] at hmem
      · rw [if_neg hlt] at hmem
        simp at hmem
        exact alert_subject_ne_final _ _ hmem.1.symm
    · intro hq
      simp only [reduceIte, if_pos hq]
      simp
  | Except.ok Json.null => simp at hn
  | Except.ok (Json.bool x) => simp at hn
  | Except.ok (Json.num x) => simp at hn
  | Except.ok (Json.str x) => simp at hn
  | Except.ok (Json.arr x) => simp at hn
  | Except.error e => simp at hn

/-- C1 witness: the 4th successful ping request (incoming counter 3) also
sends the completion alert. -/
theorem completion_alert_iff_quota_reached_witness :
    (final_subject, final_body) ∈ (webhook_handler 3 pingReq).sent :=
  (completion_alert_iff_quota_reached 3 pingReq rfl rfl).mpr (by decide)

/-- C2: when the body parses and normalizes but the per-event alert send
fails, the handler returns HTTP 500 whose message is exactly the mailer's
failure message, and the counter has already been incremented by 1 — the
increment is not rolled back. -/
theorem send_failure_500_after_increment (c : Nat) (req : Request)
    (d : List (String × Json)) (hb : req.body = Except.ok (Json.obj d))
    (hf : req.sendOutcome ≠ SmtpResult.ok) :
    (webhook_handler c req).status = 500 ∧
    (webhook_handler c req).respStatus = "error" ∧
    (webhook_handler c req).respMessage =
      (send_email_alert req.sendOutcome
        (alert_subject (c + 1) (process_webhook_data d))
        (alert_body (process_webhook_data d))).2 ∧
    (webhook_handler c req).count = c + 1 := by
  obtain ⟨b, so, fo⟩ := req
  simp only at hb hf
  rw [handler_ok_obj c _ _ _ d hb]
  cases so with
  | ok => exact absurd rfl hf
  | smtpError e => simp [send_email_alert]
  | otherError e => simp [send_email_alert]

/-- C2 witness: a ping request whose send raises `SMTPException("boom")`
at counter 0 yields 500 with the mailer's message and counter 1. -/
theorem send_failure_500_after_increment_witness :
    (webhook_handler 0 failSendReq).status = 500 ∧
    (webhook_handler 0 failSendReq).respMessage =
      "An error occurred while sending the email: boom" ∧
    (webhook_handler 0 failSendReq).count = 1 :=
  have h := send_failure_500_after_increment 0 failSendReq
    [("event_type", Json.str "ping")] rfl (by decide)
  ⟨h.1, h.2.2.1, h.2.2.2⟩

/-- C3: `process_webhook_data` is a total Lean function (so it never
raises on a dict input), and: a missing `event_type` key yields
`"Unknown"`, a missing `timestamp` key yields `None`, a missing `details`
key yields the empty dict; present keys are copied through unchanged. -/
theorem process_webhook_data_defaults :
    (∀ data, List.lookup "event_type" data = none →
       (process_webhook_data data).event_type = Json.str "Unknown") ∧
    (∀ data v, List.lookup "event_type" data = some v →
       (process_webhook_data data).event_type = v) ∧
    (∀ data, List.lookup "timestamp" data = none →
       (process_webhook_data data).timestamp = Json.null) ∧
    (∀ data v, List.lookup "timestamp" data = some v →
       (process_webhook_data data).timestamp = v) ∧
    (∀ data, List.lookup "details" data = none →
       (process_webhook_data data).details = Json.obj []) ∧
    (∀ data v, List.lookup "details" data = some v →
       (process_webhook_data data).details = v) := by
  refine ⟨?_, ?_, ?_, ?_, ?_, ?_⟩ <;> intro data
  · intro h; simp [process_webhook_data, h]
  · intro v h; simp [process_webhook_data, h]
  · intro h; simp [process_webhook_data, h]
  · intro v h; simp [process_webhook_data, h]
  · intro h; simp [process_webhook_data, h]
  · intro v h; simp [process_webhook_data, h]

/-- C3 witness: the empty dict gets all three defaults, and a present
`event_type` is copied through. -/
theorem process_webhook_data_defaults_witness :
    (process_webhook_data []).event_type = Json.str "Unknown" ∧
    (process_webhook_data []).timestamp = Json.null ∧
    (process_webhook_data []).details = Json.obj [] ∧
    (process_webhook_data [("event_type", Json.str "ping")]).event_type =
      Json.str "ping" :=
  ⟨process_webhook_data_defaults.1 [] rfl,
   process_webhook_data_defaults.2.2.1 [] rfl,
   process_webhook_data_defaults.2.2.2.2.1 [] rfl,
   process_webhook_data_defaults.2.1 [("event_type", Json.str "ping")]
     (Json.str "ping") rfl⟩

/-- C4: with body `{"event_type": "ping"}` and counter 0 at startup, the
first request's alert subject is exactly `"Webhook Alert 1/3: ping"`, and
the third request (counter reaching the quota 3) additionally sends the
fixed "Webhook Processing Complete" alert with the fixed completion body. -/
theorem ping_first_and_third_request_alerts :
    ((runHandler 0 [pingReq, pingReq, pingReq]).map
        (fun r => r.sent.map Prod.fst)) =
      [["Webhook Alert 1/3: ping"],
       ["Webhook Alert 2/3: ping"],
       ["Webhook Alert 3/3: ping", "Webhook Processing Complete"]] ∧
    ((runHandler 0 [pingReq, pingReq, pingReq]).map
        (fun r => r.sent.map Prod.snd)).getLast? =
      some [alert_body (process_webhook_data [("event_type", Json.str "ping")]),
            final_body] :=
  ⟨rfl, rfl⟩

/-- C5: every exception inside the handler body is caught at the boundary
and converted to HTTP 500 carrying the error text — in particular a
malformed (non-JSON) body yields 500 with the parse exception's text — and
every response whatsoever is either 200/success or 500/error: the handler
itself (a total function in this model) never propagates an exception. -/
theorem handler_converts_errors_to_500 :
    (∀ c req e, req.body = Except.error e →
       webhook_handler c req =
         { count := c, status := 500, respStatus := "error"
           respMessage := e, sent := [] }) ∧
    (∀ c req, ((webhook_handler c req).status = 200 ∧
                 (webhook_handler c req).respStatus = "success") ∨
              ((webhook_handler c req).status = 500 ∧
                 (webhook_handler c req).respStatus = "error")) := by
  constructor
  · intro c req e hb
    obtain ⟨b, so, fo⟩ := req
    simp only at hb
    subst hb
    rfl
  · intro c req
    obtain ⟨b, so, fo⟩ := req
    match b with
    | Except.error e => right; exact ⟨rfl, rfl⟩
    | Except.ok Json.null => right; exact ⟨rfl, rfl⟩
    | Except.ok (Json.bool x) => right; exact ⟨rfl, rfl⟩
    | Except.ok (Json.num x) => right; exact ⟨rfl, rfl⟩
    | Except.ok (Json.str x) => right; exact ⟨rfl, rfl⟩
    | Except.ok (Json.arr x) => right; exact ⟨rfl, rfl⟩
    | Except.ok (Json.obj d) =>
      rw [handler_ok_obj c _ _ _ d rfl]
      cases so with
      | ok =>
        simp [send_email_alert]
        split <;> simp
      | smtpError e => simp [send_email_alert]
      | otherError e => simp [send_email_alert]

/-- C5 witness: a request whose JSON parsing raises gets a 500 response
carrying the exception text, without touching the counter. -/
theorem handler_converts_errors_to_500_witness :
    webhook_handler 0 badJsonReq =
      { count := 0, status := 500, respStatus := "error"
        respMessage := "400 Bad Request: the browser or proxy sent a request that this server could not understand."
        sent := [] } :=
  handler_converts_errors_to_500.1 0 badJsonReq _ rfl

/-- C6: `send_email_alert` never raises past its boundary (it is a total
function of the SMTP outcome): success yields `(True, "Email sent
successfully")`, an `SMTPException` or any other exception is caught and
converted to `(False, <descriptive message>)`, and the flag is true
exactly on success. -/
theorem send_email_alert_result_tuple (smtp : SmtpResult) (s b : String) :
    (smtp = SmtpResult.ok →
       send_email_alert smtp s b = (true, "Email sent successfully")) ∧
    (∀ e, smtp = SmtpResult.smtpError e →
       send_email_alert smtp s b =
         (false, "An error occurred while sending the email: " ++ e)) ∧
    (∀ e, smtp = SmtpResult.otherError e →
       send_email_alert smtp s b =
         (false, "An unexpected error occurred: " ++ e)) ∧
    ((send_email_alert smtp s b).1 = true ↔ smtp = SmtpResult.ok) := by
  refine ⟨?_, ?_, ?_, ?_⟩
  · intro h; subst h; rfl
  · intro e h; subst h; rfl
  · intro e h; subst h; rfl
  · cases smtp <;> simp [send_email_alert]

/-- C6 witness: an `SMTPException("boom")` during send is converted to the
failure tuple with the descriptive message. -/
theorem send_email_alert_result_tuple_witness :
    send_email_alert (SmtpResult.smtpError "boom") "subj" "body" =
      (false, "An error occurred while sending the email: boom") :=
  (send_email_alert_result_tuple (SmtpResult.smtpError "boom")
    "subj" "body").2.1 "boom" rfl

/-- C7: on a request where the completion alert is sent (quota reached,
per-event send succeeded), the completion send's own outcome does not
alter the HTTP response at all: the handler returns 200 with the success
acknowledgement body regardless of that second send failing. -/
theorem completion_send_failure_does_not_alter_response (c : Nat)
    (req : Request) (d : List (String × Json))
    (hb : req.body = Except.ok (Json.obj d))
    (hs : req.sendOutcome = SmtpResult.ok)
    (hq : MAX_WEBHOOKS ≤ c + 1) :
    (webhook_handler c req).status = 200 ∧
    (webhook_handler c req).respStatus = "success" ∧
    (webhook_handler c req).respMessage = "Webhook processed and alert sent" ∧
    (final_subject, final_body) ∈ (webhook_handler c req).sent ∧
    (∀ fs, webhook_handler c ⟨req.body, req.sendOutcome, fs⟩ =
       webhook_handler c req) := by
  obtain ⟨b, so, fo⟩ := req
  simp only at hb hs
  subst hs
  refine ⟨?_, ?_, ?_, ?_, ?_⟩
  · rw [handler_ok_obj c _ _ _ d hb]; simp [send_email_alert, hq]
  · rw [handler_ok_obj c _ _ _ d hb]; simp [send_email_alert, hq]
  · rw [handler_ok_obj c _ _ _ d hb]; simp [send_email_alert, hq]
  · rw [handler_ok_obj c _ _ _ d hb]; simp [send_email_alert, hq]
  · intro fs
    simp only
    rw [handler_ok_obj c _ _ _ d hb, handler_ok_obj c _ _ _ d hb]

/-- C7 witness: the third ping request with a failing completion send
still returns 200 with the success acknowledgement. -/
theorem completion_send_failure_does_not_alter_response_witness :
    (webhook_handler 2 finalFailReq).status = 200 ∧
    (webhook_handler 2 finalFailReq).respStatus = "success" ∧
    (webhook_handler 2 finalFailReq).respMessage =
      "Webhook processed and alert sent" :=
  have h := completion_send_failure_does_not_alter_response 2 finalFailReq
    [("event_type", Json.str "ping")] rfl rfl (by decide)
  ⟨h.1, h.2.1, h.2.2.1⟩

/-- C8: the counter starts at 0 and each request that parses and
normalizes successfully increments it by exactly 1, regardless of whether
the subsequent send succeeds; other requests leave it unchanged; over any
request sequence from startup the counter equals the number of
successfully-normalized requests (nothing else modifies it). -/
theorem webhook_count_increment_invariant :
    (∀ c req, normalizesB req = true → (webhook_handler c req).count = c + 1) ∧
    (∀ c req, normalizesB req = false → (webhook_handler c req).count = c) ∧
    (∀ reqs, runCount 0 reqs = (reqs.filter normalizesB).length) := by
  refine ⟨?_, ?_, ?_⟩
  · intro c req hn
    have h := stepCount_eq c req
    rw [hn] at h
    simpa [stepCount] using h
  · intro c req hn
    have h := stepCount_eq c req
    rw [hn] at h
    simpa [stepCount] using h
  · intro reqs
    simpa using runCount_eq 0 reqs

/-- C8 witness: a successful ping increments 0 to 1, a failed-send ping
also increments, a malformed body does not, and a mixed run of four
requests ends with counter 3. -/
theorem webhook_count_increment_invariant_witness :
    (webhook_handler 0 pingReq).count = 1 ∧
    (webhook_handler 0 failSendReq).count = 1 ∧
    (webhook_handler 0 badJsonReq).count = 0 ∧
    runCount 0 [pingReq, failSendReq, badJsonReq, pingReq] = 3 :=
  ⟨webhook_count_increment_invariant.1 0 pingReq rfl,
   webhook_count_increment_invariant.1 0 failSendReq rfl,
   webhook_count_increment_invariant.2.1 0 badJsonReq rfl,
   webhook_count_increment_invariant.2.2 [pingReq, failSendReq, badJsonReq, pingReq]⟩

/-- C9: when `test_email_login()` returns false, the process exits with
status 1 without invoking `create_webhook`; when the login test succeeds
but `create_webhook()` raises, the process also exits with status 1. -/
theorem startup_exit_nonzero :
    (∀ env : StartupEnv, env.loginOk = false →
       startup env = (StartupOutcome.exited 1, false)) ∧
    (∀ (env : StartupEnv) (e : String), env.loginOk = true →
       env.createResult = Except.error e →
       startup env = (StartupOutcome.exited 1, true)) := by
  constructor
  · intro env h
    simp [startup, h]
  · intro env e hl hc
    simp [startup, hl, hc]

/-- C9 witness: both startup failure modes at concrete environments. -/
theorem startup_exit_nonzero_witness :
    startup { loginOk := false, createResult := Except.ok "url" } =
      (StartupOutcome.exited 1, false) ∧
    startup { loginOk := true, createResult := Except.error "conn refused" } =
      (StartupOutcome.exited 1, true) :=
  ⟨startup_exit_nonzero.1 { loginOk := false, createResult := Except.ok "url" } rfl,
   startup_exit_nonzero.2
     { loginOk := true, createResult := Except.error "conn refused" }
     "conn refused" rfl rfl⟩

/-- C10: a body that is valid JSON but not an object makes
`process_webhook_data` raise (`AttributeError` on `.get`), so the handler
answers 500 with that error text, the counter is unchanged, and no alert
is sent. -/
theorem non_object_body_500_no_increment (c : Nat) (req : Request)
    (v : Json) (hb : req.body = Except.ok v)
    (hnv : ∀ d, v ≠ Json.obj d) :
    (webhook_handler c req).status = 500 ∧
    (webhook_handler c req).respStatus = "error" ∧
    (webhook_handler c req).respMessage = attrError v ∧
    (webhook_handler c req).count = c ∧
    (webhook_handler c req).sent = [] := by
  obtain ⟨b, so, fo⟩ := req
  simp only at hb
  subst hb
  match v, hnv with
  | Json.null, _ => exact ⟨rfl, rfl, rfl, rfl, rfl⟩
  | Json.bool x, _ => exact ⟨rfl, rfl, rfl, rfl, rfl⟩
  | Json.num x, _ => exact ⟨rfl, rfl, rfl, rfl, rfl⟩
  | Json.str x, _ => exact ⟨rfl, rfl, rfl, rfl, rfl⟩
  | Json.arr x, _ => exact ⟨rfl, rfl, rfl, rfl, rfl⟩
  | Json.obj d, hnv => exact absurd rfl (hnv d)

/-- C10 witness: an empty JSON array body yields 500 with Python's
`AttributeError` text, counter untouched, no alert attempted. -/
theorem non_object_body_500_no_increment_witness :
    (webhook_handler 0 arrayReq).status = 500 ∧
    (webhook_handler 0 arrayReq).respMessage =
      attrError (Json.arr []) ∧
    (webhook_handler 0 arrayReq).count = 0 ∧
    (webhook_handler 0 arrayReq).sent = [] :=
  have h := non_object_body_500_no_increment 0 arrayReq (Json.arr []) rfl
    (fun d hd => Json.noConfusion hd)
  ⟨h.1, h.2.2.1, h.2.2.2.1, h.2.2.2.2⟩

end Webhooks
